import Mathlib

/-!
Verification of the weighted governance voting engine of the anon-bot
repository (src/bot.py).  The definitions below are a shallow embedding of
the governance code: `cast_vote`, `execute_proposal` and `cancel_proposal`
from bot.py, with the database rows (`proposals`, `votes`) as explicit
state, the Telegram roster as an explicit list of chat members, time as a
natural number of seconds, and Python float arithmetic modelled by exact
rational arithmetic.
-/

namespace AnonBot

/-- A member returned by `chat.get_administrators()` in bot.py: a user id,
whether the account is a bot, and whether its status is `OWNER`. -/
structure ChatMember where
  userId : Nat
  isBot : Bool
  isOwner : Bool
deriving DecidableEq

/-- A row of the `proposals` table (bot.py, table created at lines 80-86).
`createdAt` and `lastPingedAt` are seconds since an arbitrary epoch. -/
structure ProposalRec where
  id : Nat
  groupId : Nat
  proposerId : Nat
  actionType : String
  keyTarget : String
  valueTarget : String
  status : String
  createdAt : Nat
  lastPingedAt : Option Nat
deriving DecidableEq

/-- The governance state for a single proposal: the proposal row, its rows
of the `votes` table (keyed by voter id), and the log of execution effects
that have fired (one entry per firing, recording the action type). -/
structure GovState where
  proposal : ProposalRec
  votes : List (Nat × String)
  effects : List String
deriving DecidableEq

/-- Python's `s.startswith("blacklist_")` (bot.py line 318), modelled on the
character list so that it evaluates in the kernel. -/
def isBlacklistAction (s : String) : Bool :=
  "blacklist_".toList.isPrefixOf s.toList

/-- Python truthiness of the `owner_id` value (`None` and `0` are falsy),
used by `if admin_pool_count == 0 and owner_id` and `elif not owner_id`
(bot.py lines 323 and 326). -/
abbrev ownerFalsy (oid : Option Nat) : Prop :=
  oid = none ∨ oid = some 0

/-- The voter ids of the recorded ballots, as returned by
`SELECT user_id FROM votes WHERE proposal_id=$1` (bot.py line 305). -/
def votedIds (votes : List (Nat × String)) : List Nat :=
  votes.map Prod.fst

/-- The ballot upsert
`INSERT INTO votes ... ON CONFLICT (proposal_id, user_id) DO UPDATE SET vote=$3`
(bot.py lines 290-291): overwrite the choice if the voter already has a
row, append a new row otherwise. -/
def upsertVote (votes : List (Nat × String)) (uid : Nat) (v : String) :
    List (Nat × String) :=
  if uid ∈ votedIds votes then
    votes.map (fun p => if p.1 = uid then (p.1, v) else p)
  else
    votes ++ [(uid, v)]

/-- `len([uid for uid in voted_ids if uid in current_admin_ids])`
(bot.py line 307). -/
def validVotesCount (votes : List (Nat × String)) (ids : List Nat) : Nat :=
  ((votedIds votes).filter (fun u => decide (u ∈ ids))).length

/-- `missing = len(current_admin_ids) - valid_votes_count` (bot.py line 308),
as an integer exactly like Python's subtraction. -/
def missingCount (votes : List (Nat × String)) (ids : List Nat) : Int :=
  (ids.length : Int) - (validVotesCount votes ids : Int)

/-- `current_admin_ids = [a.user.id for a in current_admins if not a.user.is_bot]`
(bot.py line 303). -/
def currentAdminIdsOf (roster : List ChatMember) : List Nat :=
  (roster.filter (fun a => !a.isBot)).map (fun a => a.userId)

/-- `owner_id = next((a.user.id for a in current_admins if a.status == OWNER), None)`
(bot.py line 314). -/
def ownerIdOf (roster : List ChatMember) : Option Nat :=
  (roster.find? (fun a => a.isOwner)).map (fun a => a.userId)

/-- `admins_except_owner = [a for a in current_admins if a.user.id != owner_id and not a.user.is_bot]`
followed by `len` (bot.py lines 315-316).  In Python `a.user.id != None` is
always true, which the `Option` comparison reproduces. -/
def adminPoolCount (roster : List ChatMember) : Nat :=
  (roster.filter
    (fun a => decide (¬ ownerIdOf roster = some a.userId) && !a.isBot)).length

/-- The weight computation of bot.py lines 318-331, returning the pair
`(owner_weight, admin_weight)`.  Python float division is modelled by
exact rational division. -/
def computeWeights (actionType : String) (apc : Nat) (oid : Option Nat) :
    ℚ × ℚ :=
  if isBlacklistAction actionType then
    (0, if apc > 0 then 100 / (apc : ℚ) else 0)
  else
    if apc = 0 ∧ ¬ ownerFalsy oid then (100, 0)
    else if ownerFalsy oid then (0, if apc > 0 then 100 / (apc : ℚ) else 0)
    else (50, if apc > 0 then 50 / (apc : ℚ) else 0)

/-- The score contribution of a single `votes` row in the tally loop of
bot.py lines 337-343: a yes ballot from an eligible voter contributes the
owner weight (owner, non-blacklist), the admin weight (non-owner), or
nothing (owner, blacklist); every other row contributes nothing. -/
def contrib (ids : List Nat) (oid : Option Nat) (actionType : String)
    (ow aw : ℚ) (v : Nat × String) : ℚ :=
  if v.1 ∈ ids ∧ v.2 = "yes" then
    if oid = some v.1 ∧ ¬ isBlacklistAction actionType = true then ow
    else if ¬ oid = some v.1 then aw
    else 0
  else 0

/-- The `score_yes` accumulation loop of bot.py lines 333-343. -/
def scoreYes (votes : List (Nat × String)) (ids : List Nat)
    (oid : Option Nat) (actionType : String) (ow aw : ℚ) : ℚ :=
  votes.foldl
    (fun acc v =>
      if v.1 ∈ ids ∧ v.2 = "yes" then
        if oid = some v.1 ∧ ¬ isBlacklistAction actionType = true then acc + ow
        else if ¬ oid = some v.1 then acc + aw
        else acc
      else acc) 0

/-- The weight a given eligible voter carries in the tally loop (the same
branch structure as `contrib`, for a yes ballot). -/
def voterWeight (actionType : String) (oid : Option Nat) (ow aw : ℚ)
    (uid : Nat) : ℚ :=
  if oid = some uid ∧ ¬ isBlacklistAction actionType = true then ow
  else if ¬ oid = some uid then aw
  else 0

/-- The ephemeral weight table of one evaluation: each eligible voter
(bot.py line 303) paired with the weight the tally loop would give their
yes ballot, from the weights of bot.py lines 318-331. -/
def weightTable (roster : List ChatMember) (actionType : String) :
    List (Nat × ℚ) :=
  let oid := ownerIdOf roster
  let w := computeWeights actionType (adminPoolCount roster) oid
  (currentAdminIdsOf roster).map
    (fun uid => (uid, voterWeight actionType oid w.1 w.2 uid))

/-- Which return path `cast_vote` took. -/
inductive CastResult where
  | invalidOrClosed
  | expired
  | rosterFetchFailed
  | stillPending
  | passed
  | rejected
deriving DecidableEq

/-- A message sent back to the caller of `cast_vote` (messages broadcast to
the group are not caller replies and are not modelled here). -/
inductive Reply where
  | invalidOrClosed
  | expiredMsg
  | voteSaved (pid : Nat)
deriving DecidableEq

/-- `execute_proposal` (bot.py lines 352-378): fire the category's effect
(logged in `effects`), then `UPDATE proposals SET status='passed'`. -/
def execute_proposal (st : GovState) : GovState :=
  { st with
      effects := st.effects ++ [st.proposal.actionType]
      proposal := { st.proposal with status := "passed" } }

/-- `cast_vote` (bot.py lines 268-350), for the proposal held in `st`:
fetch the proposal if it is pending (line 276), lazily expire it when
older than 30 days (lines 283-288), upsert the ballot (lines 290-291) and
acknowledge the caller (line 293), fetch the live roster (lines 295-301,
`rosterFetch = none` models the swallowed exception), apply the attendance
gate (lines 303-312), compute weights and the yes score (lines 314-343)
and finish with `execute_proposal` or a rejection (lines 345-349). -/
def cast_vote (st : GovState) (pid : Nat)
    (rosterFetch : Option (List ChatMember)) (now : Nat) (userId : Nat)
    (vote : String) (auto : Bool) : CastResult × GovState × List Reply :=
  if st.proposal.id = pid ∧ st.proposal.status = "pending" then
    if now - st.proposal.createdAt > 30 * 86400 then
      (CastResult.expired,
        { st with proposal := { st.proposal with status := "expired" } },
        if auto then [] else [Reply.expiredMsg])
    else
      let st1 : GovState := { st with votes := upsertVote st.votes userId vote }
      let saved : List Reply := if auto then [] else [Reply.voteSaved pid]
      match rosterFetch with
      | none => (CastResult.rosterFetchFailed, st1, saved)
      | some roster =>
        let ids := currentAdminIdsOf roster
        if missingCount st1.votes ids > 0 then
          (CastResult.stillPending, st1, saved)
        else
          let oid := ownerIdOf roster
          let w := computeWeights st.proposal.actionType (adminPoolCount roster) oid
          if scoreYes st1.votes ids oid st.proposal.actionType w.1 w.2 ≥ 50 then
            (CastResult.passed, execute_proposal st1, saved)
          else
            (CastResult.rejected,
              { st1 with proposal := { st1.proposal with status := "rejected" } },
              saved)
  else
    (CastResult.invalidOrClosed, st,
      if auto then [] else [Reply.invalidOrClosed])

/-- Which return path `cancel_proposal` took. -/
inductive CancelResult where
  | notAdmin
  | invalidId
  | notProposer
  | cancelled
deriving DecidableEq

/-- `cancel_proposal` (bot.py lines 428-447).  `isAdminCheck` is the result
of the external `is_admin(update)` gate at line 429; then the pending
lookup (line 437), the proposer check (line 441) and the transition to
`cancelled` (line 444). -/
def cancel_proposal (st : GovState) (isAdminCheck : Bool)
    (requesterId pid : Nat) : CancelResult × GovState :=
  if !isAdminCheck then (CancelResult.notAdmin, st)
  else if ¬ (st.proposal.id = pid ∧ st.proposal.status = "pending") then
    (CancelResult.invalidId, st)
  else if ¬ st.proposal.proposerId = requesterId then
    (CancelResult.notProposer, st)
  else
    (CancelResult.cancelled,
      { st with proposal := { st.proposal with status := "cancelled" } })

/-- A non-bot administrator roster entry. -/
def mkAdmin (uid : Nat) : ChatMember := ⟨uid, false, false⟩

/-- The roster entry holding the `OWNER` status. -/
def mkOwner (uid : Nat) : ChatMember := ⟨uid, false, true⟩

/-- A concrete roster in the shape of the spec's roster snapshot: an
optional owner followed by the non-owner administrators (no bots). -/
def mkRoster : Option Nat → List Nat → List ChatMember
  | none, l => l.map mkAdmin
  | some o, l => mkOwner o :: l.map mkAdmin

/-- One request handler running `cast_vote` concurrently with another on the
same proposal: the voter, their choice, a program counter marking how far
the handler has progressed between awaited calls, and the proposal row it
fetched at the start. -/
structure EvalThread where
  uid : Nat
  vote : String
  pc : Nat
  snap : Option ProposalRec
deriving DecidableEq

/-- One atomic step of a concurrent `cast_vote` handler.  The source is
cooperative async code in which every database or network call is awaited,
so another handler can run between any two of them; the program points
are: 0 = the pending fetch and lazy-expiry check (bot.py lines 276-288),
1 = the ballot upsert (line 290), 2 = the roster read, attendance gate and
tally deciding the branch (lines 295-349), 3 = the execution effect (the
body of `execute_proposal`), 4 = `UPDATE proposals SET status='passed'`
(line 376), 5 = finished.  All status writes are unconditional updates,
exactly as in the source — there is no compare-and-set. -/
def threadStep (roster : List ChatMember) (now : Nat) (st : GovState)
    (t : EvalThread) : GovState × EvalThread :=
  if t.pc = 0 then
    if st.proposal.status = "pending" then
      if now - st.proposal.createdAt > 30 * 86400 then
        ({ st with proposal := { st.proposal with status := "expired" } },
          { t with pc := 5 })
      else (st, { t with snap := some st.proposal, pc := 1 })
    else (st, { t with pc := 5 })
  else if t.pc = 1 then
    ({ st with votes := upsertVote st.votes t.uid t.vote }, { t with pc := 2 })
  else if t.pc = 2 then
    match t.snap with
    | none => (st, { t with pc := 5 })
    | some prop =>
      let ids := currentAdminIdsOf roster
      if missingCount st.votes ids > 0 then (st, { t with pc := 5 })
      else
        let oid := ownerIdOf roster
        let w := computeWeights prop.actionType (adminPoolCount roster) oid
        if scoreYes st.votes ids oid prop.actionType w.1 w.2 ≥ 50 then
          (st, { t with pc := 3 })
        else
          ({ st with proposal := { st.proposal with status := "rejected" } },
            { t with pc := 5 })
  else if t.pc = 3 then
    match t.snap with
    | none => (st, { t with pc := 5 })
    | some prop =>
      ({ st with effects := st.effects ++ [prop.actionType] }, { t with pc := 4 })
  else if t.pc = 4 then
    ({ st with proposal := { st.proposal with status := "passed" } },
      { t with pc := 5 })
  else (st, t)

/-- The shared state together with two racing evaluator handlers. -/
structure RaceState where
  shared : GovState
  t1 : EvalThread
  t2 : EvalThread
deriving DecidableEq

/-- Run the first thread for one step. -/
def stepT1 (roster : List ChatMember) (now : Nat) (rs : RaceState) : RaceState :=
  { shared := (threadStep roster now rs.shared rs.t1).1,
    t1 := (threadStep roster now rs.shared rs.t1).2, t2 := rs.t2 }

/-- Run the second thread for one step. -/
def stepT2 (roster : List ChatMember) (now : Nat) (rs : RaceState) : RaceState :=
  { shared := (threadStep roster now rs.shared rs.t2).1,
    t1 := rs.t1, t2 := (threadStep roster now rs.shared rs.t2).2 }

/-- Execute an interleaving of the two threads: `true` steps the first
thread, `false` the second. -/
def runSchedule (roster : List ChatMember) (now : Nat) :
    List Bool → RaceState → RaceState
  | [], rs => rs
  | b :: rest, rs =>
    if b then runSchedule roster now rest (stepT1 roster now rs)
    else runSchedule roster now rest (stepT2 roster now rs)

/-- Run a single evaluator thread alone for a number of steps. -/
def runEvalThread (roster : List ChatMember) (now : Nat) :
    Nat → GovState × EvalThread → GovState × EvalThread
  | 0, p => p
  | n + 1, p => runEvalThread roster now n (threadStep roster now p.1 p.2)

section HelperLemmas

lemma votedIds_upsert_mem {votes : List (Nat × String)} {uid : Nat} (c : String)
    (h : uid ∈ votedIds votes) :
    votedIds (upsertVote votes uid c) = votedIds votes := by
  unfold upsertVote
  rw [if_pos h]
  unfold votedIds
  rw [List.map_map]
  refine List.map_congr_left ?_
  intro p hp
  by_cases hpu : p.1 = uid <;> simp [hpu]

lemma votedIds_upsert_not_mem {votes : List (Nat × String)} {uid : Nat} (c : String)
    (h : uid ∉ votedIds votes) :
    votedIds (upsertVote votes uid c) = votedIds votes ++ [uid] := by
  unfold upsertVote
  rw [if_neg h]
  simp [votedIds]

lemma votedIds_upsert_indep (votes : List (Nat × String)) (uid : Nat) (c c' : String) :
    votedIds (upsertVote votes uid c) = votedIds (upsertVote votes uid c') := by
  by_cases h : uid ∈ votedIds votes
  · rw [votedIds_upsert_mem c h, votedIds_upsert_mem c' h]
  · rw [votedIds_upsert_not_mem c h, votedIds_upsert_not_mem c' h]

lemma nodup_votedIds_upsert {votes : List (Nat × String)} {uid : Nat} (c : String)
    (h : (votedIds votes).Nodup) :
    (votedIds (upsertVote votes uid c)).Nodup := by
  by_cases hm : uid ∈ votedIds votes
  · rw [votedIds_upsert_mem c hm]; exact h
  · rw [votedIds_upsert_not_mem c hm]
    simp [List.nodup_append, h, hm]

lemma missingCount_pos {votes : List (Nat × String)} {ids : List Nat}
    (hk : (votedIds votes).Nodup) (hi : ids.Nodup)
    {x : Nat} (hxi : x ∈ ids) (hxk : x ∉ votedIds votes) :
    missingCount votes ids > 0 := by
  have hlt : validVotesCount votes ids < ids.length := by
    unfold validVotesCount
    have hfil : ((votedIds votes).filter (fun u => decide (u ∈ ids))).toFinset ⊆ ids.toFinset := by
      intro a ha
      simp only [List.mem_toFinset, List.mem_filter, decide_eq_true_eq] at ha ⊢
      exact ha.2
    have hss : ((votedIds votes).filter (fun u => decide (u ∈ ids))).toFinset ⊂ ids.toFinset := by
      refine ⟨hfil, ?_⟩
      intro hsup
      have hx : x ∈ ((votedIds votes).filter (fun u => decide (u ∈ ids))).toFinset :=
        hsup (by simpa using hxi)
      simp only [List.mem_toFinset, List.mem_filter, decide_eq_true_eq] at hx
      exact hxk hx.1
    have hcard := Finset.card_lt_card hss
    rwa [List.toFinset_card_of_nodup (hk.filter _),
      List.toFinset_card_of_nodup hi] at hcard
  unfold missingCount
  omega

lemma scoreYes_eq_sum_aux (ids : List Nat) (oid : Option Nat) (actionType : String)
    (ow aw : ℚ) (votes : List (Nat × String)) (acc : ℚ) :
    votes.foldl
      (fun acc v =>
        if v.1 ∈ ids ∧ v.2 = "yes" then
          if oid = some v.1 ∧ ¬ isBlacklistAction actionType = true then acc + ow
          else if ¬ oid = some v.1 then acc + aw
          else acc
        else acc) acc
      = acc + ((votes.map (contrib ids oid actionType ow aw)).sum : ℚ) := by
  induction votes generalizing acc with
  | nil => simp
  | cons v t ih =>
    simp only [List.foldl_cons, List.map_cons, List.sum_cons, ih]
    unfold contrib
    split_ifs <;> ring

lemma scoreYes_eq_sum (votes : List (Nat × String)) (ids : List Nat)
    (oid : Option Nat) (actionType : String) (ow aw : ℚ) :
    scoreYes votes ids oid actionType ow aw
      = ((votes.map (contrib ids oid actionType ow aw)).sum : ℚ) := by
  unfold scoreYes
  simpa using scoreYes_eq_sum_aux ids oid actionType ow aw votes 0

lemma scoreYes_zero_weights (votes : List (Nat × String)) (ids : List Nat)
    (oid : Option Nat) (actionType : String) :
    scoreYes votes ids oid actionType 0 0 = 0 := by
  rw [scoreYes_eq_sum]
  refine List.sum_eq_zero ?_
  intro x hx
  simp only [List.mem_map] at hx
  obtain ⟨v, _, rfl⟩ := hx
  unfold contrib
  split_ifs <;> rfl

lemma scoreYes_upsert_not_yes (votes : List (Nat × String)) (uid : Nat)
    (c : String) (hc : ¬ c = "yes") (ids : List Nat) (oid : Option Nat)
    (act : String) (ow aw : ℚ) :
    scoreYes (upsertVote votes uid c) ids oid act ow aw =
    scoreYes (upsertVote votes uid "no") ids oid act ow aw := by
  rw [scoreYes_eq_sum, scoreYes_eq_sum]
  unfold upsertVote
  by_cases h : uid ∈ votedIds votes
  · rw [if_pos h, if_pos h, List.map_map, List.map_map]
    refine congrArg List.sum (List.map_congr_left ?_)
    intro p hp
    simp only [Function.comp_def]
    by_cases hpu : p.1 = uid
    · rw [if_pos hpu, if_pos hpu]
      unfold contrib
      simp [hc]
    · rw [if_neg hpu, if_neg hpu]
  · rw [if_neg h, if_neg h]
    simp only [List.map_append, List.sum_append]
    congr 1
    unfold contrib
    simp [hc]

lemma computeWeights_none (act : String) (n : Nat) :
    computeWeights act n none = (0, if n > 0 then 100 / (n : ℚ) else 0) := by
  unfold computeWeights
  split_ifs <;> simp_all [ownerFalsy]

lemma ownerIdOf_mkRoster_some (o : Nat) (l : List Nat) :
    ownerIdOf (mkRoster (some o) l) = some o := by
  simp [mkRoster, ownerIdOf, mkOwner, List.find?]

lemma ownerIdOf_mkRoster_none (l : List Nat) :
    ownerIdOf (mkRoster none l) = none := by
  simp [mkRoster, ownerIdOf]
  induction l with
  | nil => simp
  | cons a t ih => simp [mkAdmin, List.find?, ih]

lemma currentAdminIdsOf_mkRoster_some (o : Nat) (l : List Nat) :
    currentAdminIdsOf (mkRoster (some o) l) = o :: l := by
  simp [mkRoster, currentAdminIdsOf, mkOwner, mkAdmin, List.filter_map,
    List.map_map, Function.comp_def]

lemma currentAdminIdsOf_mkRoster_none (l : List Nat) :
    currentAdminIdsOf (mkRoster none l) = l := by
  simp [mkRoster, currentAdminIdsOf, mkAdmin, List.filter_map,
    List.map_map, Function.comp_def]

lemma adminPoolCount_mkRoster_some (o : Nat) (l : List Nat)
    (hol : ∀ i ∈ l, ¬ i = o) :
    adminPoolCount (mkRoster (some o) l) = l.length := by
  unfold adminPoolCount
  rw [ownerIdOf_mkRoster_some]
  simp only [mkRoster, mkOwner, mkAdmin, List.filter_cons, List.filter_map]
  have : ∀ i ∈ l, (fun a : ChatMember =>
      decide (¬ (some o : Option Nat) = some a.userId) && !a.isBot) (mkAdmin i) = true := by
    intro i hi
    simp [mkAdmin]
    exact fun h => hol i hi h.symm
  simp_all [List.filter_eq_self]

lemma adminPoolCount_mkRoster_none (l : List Nat) :
    adminPoolCount (mkRoster none l) = l.length := by
  unfold adminPoolCount
  rw [ownerIdOf_mkRoster_none]
  simp [mkRoster, mkAdmin, List.filter_map]

lemma sum_map_voterWeight_of_not_owner (act : String) (oid : Option Nat)
    (ow aw : ℚ) (l : List Nat) (h : ∀ i ∈ l, ¬ oid = some i) :
    ((l.map (fun i => voterWeight act oid ow aw i)).sum : ℚ) = l.length * aw := by
  induction l with
  | nil => simp
  | cons a t ih =>
    simp only [List.map_cons, List.sum_cons, List.length_cons]
    rw [ih (fun i hi => h i (List.mem_cons_of_mem a hi))]
    have ha : ¬ oid = some a := h a (List.mem_cons_self a t)
    unfold voterWeight
    rw [if_neg (fun hh => ha hh.1), if_pos ha]
    push_cast
    ring

lemma threadStep_terminal (roster : List ChatMember) (now : Nat)
    (st : GovState) (t : EvalThread)
    (hnp : ¬ st.proposal.status = "pending") (hpc : t.pc = 0) :
    threadStep roster now st t = (st, { t with pc := 5 }) := by
  unfold threadStep
  rw [if_pos hpc, if_neg hnp]

lemma threadStep_halted (roster : List ChatMember) (now : Nat)
    (st : GovState) (t : EvalThread) (hpc : t.pc = 5) :
    threadStep roster now st t = (st, t) := by
  unfold threadStep
  rw [if_neg (by omega), if_neg (by omega), if_neg (by omega),
    if_neg (by omega), if_neg (by omega)]

lemma runEvalThread_halted (roster : List ChatMember) (now : Nat) (n : Nat)
    (st : GovState) (t : EvalThread) (hpc : t.pc = 5) :
    runEvalThread roster now n (st, t) = (st, t) := by
  induction n with
  | zero => rfl
  | succ k ih =>
    show runEvalThread roster now k
      (threadStep roster now (st, t).1 (st, t).2) = (st, t)
    rw [threadStep_halted roster now st t hpc]
    exact ih

lemma runSchedule_cons_true (roster : List ChatMember) (now : Nat)
    (rest : List Bool) (rs : RaceState) :
    runSchedule roster now (true :: rest) rs =
    runSchedule roster now rest (stepT1 roster now rs) := rfl

lemma runSchedule_cons_false (roster : List ChatMember) (now : Nat)
    (rest : List Bool) (rs : RaceState) :
    runSchedule roster now (false :: rest) rs =
    runSchedule roster now rest (stepT2 roster now rs) := rfl

lemma race_effects :
    (runSchedule [mkAdmin 1, mkAdmin 2] 1000
        [true, false, true, false, true, false, true, true, false, false]
        ⟨⟨⟨1, 10, 1, "config", "engagement_tracking", "true", "pending", 0, none⟩,
            [(1, "yes")], []⟩,
          ⟨1, "yes", 0, none⟩, ⟨2, "yes", 0, none⟩⟩).shared.effects
      = ["config", "config"] := by
  have hbl : isBlacklistAction "config" = false := by decide
  have e1 : stepT1 [mkAdmin 1, mkAdmin 2] 1000
      ⟨⟨⟨1, 10, 1, "config", "engagement_tracking", "true", "pending", 0, none⟩,
          [(1, "yes")], []⟩, ⟨1, "yes", 0, none⟩, ⟨2, "yes", 0, none⟩⟩ =
      ⟨⟨⟨1, 10, 1, "config", "engagement_tracking", "true", "pending", 0, none⟩,
          [(1, "yes")], []⟩,
        ⟨1, "yes", 1, some ⟨1, 10, 1, "config", "engagement_tracking", "true", "pending", 0, none⟩⟩,
        ⟨2, "yes", 0, none⟩⟩ := by
    simp [stepT1, threadStep]
  have e2 : stepT2 [mkAdmin 1, mkAdmin 2] 1000
      ⟨⟨⟨1, 10, 1, "config", "engagement_tracking", "true", "pending", 0, none⟩,
          [(1, "yes")], []⟩,
        ⟨1, "yes", 1, some ⟨1, 10, 1, "config", "engagement_tracking", "true", "pending", 0, none⟩⟩,
        ⟨2, "yes", 0, none⟩⟩ =
      ⟨⟨⟨1, 10, 1, "config", "engagement_tracking", "true", "pending", 0, none⟩,
          [(1, "yes")], []⟩,
        ⟨1, "yes", 1, some ⟨1, 10, 1, "config", "engagement_tracking", "true", "pending", 0, none⟩⟩,
        ⟨2, "yes", 1, some ⟨1, 10, 1, "config", "engagement_tracking", "true", "pending", 0, none⟩⟩⟩ := by
    simp [stepT2, threadStep]
  have e3 : stepT1 [mkAdmin 1, mkAdmin 2] 1000
      ⟨⟨⟨1, 10, 1, "config", "engagement_tracking", "true", "pending", 0, none⟩,
          [(1, "yes")], []⟩,
        ⟨1, "yes", 1, some ⟨1, 10, 1, "config", "engagement_tracking", "true", "pending", 0, none⟩⟩,
        ⟨2, "yes", 1, some ⟨1, 10, 1, "config", "engagement_tracking", "true", "pending", 0, none⟩⟩⟩ =
      ⟨⟨⟨1, 10, 1, "config", "engagement_tracking", "true", "pending", 0, none⟩,
          [(1, "yes")], []⟩,
        ⟨1, "yes", 2, some ⟨1, 10, 1, "config", "engagement_tracking", "true", "pending", 0, none⟩⟩,
        ⟨2, "yes", 1, some ⟨1, 10, 1, "config", "engagement_tracking", "true", "pending", 0, none⟩⟩⟩ := by
    simp [stepT1, threadStep, upsertVote, votedIds]
  have e4 : stepT2 [mkAdmin 1, mkAdmin 2] 1000
      ⟨⟨⟨1, 10, 1, "config", "engagement_tracking", "true", "pending", 0, none⟩,
          [(1, "yes")], []⟩,
        ⟨1, "yes", 2, some ⟨1, 10, 1, "config", "engagement_tracking", "true", "pending", 0, none⟩⟩,
        ⟨2, "yes", 1, some ⟨1, 10, 1, "config", "engagement_tracking", "true", "pending", 0, none⟩⟩⟩ =
      ⟨⟨⟨1, 10, 1, "config", "engagement_tracking", "true", "pending", 0, none⟩,
          [(1, "yes"), (2, "yes")], []⟩,
        ⟨1, "yes", 2, some ⟨1, 10, 1, "config", "engagement_tracking", "true", "pending", 0, none⟩⟩,
        ⟨2, "yes", 2, some ⟨1, 10, 1, "config", "engagement_tracking", "true", "pending", 0, none⟩⟩⟩ := by
    simp [stepT2, threadStep, upsertVote, votedIds]
  have e5 : stepT1 [mkAdmin 1, mkAdmin 2] 1000
      ⟨⟨⟨1, 10, 1, "config", "engagement_tracking", "true", "pending", 0, none⟩,
          [(1, "yes"), (2, "yes")], []⟩,
        ⟨1, "yes", 2, some ⟨1, 10, 1, "config", "engagement_tracking", "true", "pending", 0, none⟩⟩,
        ⟨2, "yes", 2, some ⟨1, 10, 1, "config", "engagement_tracking", "true", "pending", 0, none⟩⟩⟩ =
      ⟨⟨⟨1, 10, 1, "config", "engagement_tracking", "true", "pending", 0, none⟩,
          [(1, "yes"), (2, "yes")], []⟩,
        ⟨1, "yes", 3, some ⟨1, 10, 1, "config", "engagement_tracking", "true", "pending", 0, none⟩⟩,
        ⟨2, "yes", 2, some ⟨1, 10, 1, "config", "engagement_tracking", "true", "pending", 0, none⟩⟩⟩ := by
    simp [stepT1, threadStep, upsertVote, votedIds, missingCount, validVotesCount,
      currentAdminIdsOf, ownerIdOf, adminPoolCount, computeWeights, scoreYes,
      mkAdmin, ownerFalsy, hbl, List.filter, List.foldl]
    norm_num
  have e6 : stepT2 [mkAdmin 1, mkAdmin 2] 1000
      ⟨⟨⟨1, 10, 1, "config", "engagement_tracking", "true", "pending", 0, none⟩,
          [(1, "yes"), (2, "yes")], []⟩,
        ⟨1, "yes", 3, some ⟨1, 10, 1, "config", "engagement_tracking", "true", "pending", 0, none⟩⟩,
        ⟨2, "yes", 2, some ⟨1, 10, 1, "config", "engagement_tracking", "true", "pending", 0, none⟩⟩⟩ =
      ⟨⟨⟨1, 10, 1, "config", "engagement_tracking", "true", "pending", 0, none⟩,
          [(1, "yes"), (2, "yes")], []⟩,
        ⟨1, "yes", 3, some ⟨1, 10, 1, "config", "engagement_tracking", "true", "pending", 0, none⟩⟩,
        ⟨2, "yes", 3, some ⟨1, 10, 1, "config", "engagement_tracking", "true", "pending", 0, none⟩⟩⟩ := by
    simp [stepT2, threadStep, upsertVote, votedIds, missingCount, validVotesCount,
      currentAdminIdsOf, ownerIdOf, adminPoolCount, computeWeights, scoreYes,
      mkAdmin, ownerFalsy, hbl, List.filter, List.foldl]
    norm_num
  have e7 : stepT1 [mkAdmin 1, mkAdmin 2] 1000
      ⟨⟨⟨1, 10, 1, "config", "engagement_tracking", "true", "pending", 0, none⟩,
          [(1, "yes"), (2, "yes")], []⟩,
        ⟨1, "yes", 3, some ⟨1, 10, 1, "config", "engagement_tracking", "true", "pending", 0, none⟩⟩,
        ⟨2, "yes", 3, some ⟨1, 10, 1, "config", "engagement_tracking", "true", "pending", 0, none⟩⟩⟩ =
      ⟨⟨⟨1, 10, 1, "config", "engagement_tracking", "true", "pending", 0, none⟩,
          [(1, "yes"), (2, "yes")], ["config"]⟩,
        ⟨1, "yes", 4, some ⟨1, 10, 1, "config", "engagement_tracking", "true", "pending", 0, none⟩⟩,
        ⟨2, "yes", 3, some ⟨1, 10, 1, "config", "engagement_tracking", "true", "pending", 0, none⟩⟩⟩ := by
    simp [stepT1, threadStep]
  have e8 : stepT1 [mkAdmin 1, mkAdmin 2] 1000
      ⟨⟨⟨1, 10, 1, "config", "engagement_tracking", "true", "pending", 0, none⟩,
          [(1, "yes"), (2, "yes")], ["config"]⟩,
        ⟨1, "yes", 4, some ⟨1, 10, 1, "config", "engagement_tracking", "true", "pending", 0, none⟩⟩,
        ⟨2, "yes", 3, some ⟨1, 10, 1, "config", "engagement_tracking", "true", "pending", 0, none⟩⟩⟩ =
      ⟨⟨⟨1, 10, 1, "config", "engagement_tracking", "true", "passed", 0, none⟩,
          [(1, "yes"), (2, "yes")], ["config"]⟩,
        ⟨1, "yes", 5, some ⟨1, 10, 1, "config", "engagement_tracking", "true", "pending", 0, none⟩⟩,
        ⟨2, "yes", 3, some ⟨1, 10, 1, "config", "engagement_tracking", "true", "pending", 0, none⟩⟩⟩ := by
    simp [stepT1, threadStep]
  have e9 : stepT2 [mkAdmin 1, mkAdmin 2] 1000
      ⟨⟨⟨1, 10, 1, "config", "engagement_tracking", "true", "passed", 0, none⟩,
          [(1, "yes"), (2, "yes")], ["config"]⟩,
        ⟨1, "yes", 5, some ⟨1, 10, 1, "config", "engagement_tracking", "true", "pending", 0, none⟩⟩,
        ⟨2, "yes", 3, some ⟨1, 10, 1, "config", "engagement_tracking", "true", "pending", 0, none⟩⟩⟩ =
      ⟨⟨⟨1, 10, 1, "config", "engagement_tracking", "true", "passed", 0, none⟩,
          [(1, "yes"), (2, "yes")], ["config", "config"]⟩,
        ⟨1, "yes", 5, some ⟨1, 10, 1, "config", "engagement_tracking", "true", "pending", 0, none⟩⟩,
        ⟨2, "yes", 4, some ⟨1, 10, 1, "config", "engagement_tracking", "true", "pending", 0, none⟩⟩⟩ := by
    simp [stepT2, threadStep]
  have e10 : stepT2 [mkAdmin 1, mkAdmin 2] 1000
      ⟨⟨⟨1, 10, 1, "config", "engagement_tracking", "true", "passed", 0, none⟩,
          [(1, "yes"), (2, "yes")], ["config", "config"]⟩,
        ⟨1, "yes", 5, some ⟨1, 10, 1, "config", "engagement_tracking", "true", "pending", 0, none⟩⟩,
        ⟨2, "yes", 4, some ⟨1, 10, 1, "config", "engagement_tracking", "true", "pending", 0, none⟩⟩⟩ =
      ⟨⟨⟨1, 10, 1, "config", "engagement_tracking", "true", "passed", 0, none⟩,
          [(1, "yes"), (2, "yes")], ["config", "config"]⟩,
        ⟨1, "yes", 5, some ⟨1, 10, 1, "config", "engagement_tracking", "true", "pending", 0, none⟩⟩,
        ⟨2, "yes", 5, some ⟨1, 10, 1, "config", "engagement_tracking", "true", "pending", 0, none⟩⟩⟩ := by
    simp [stepT2, threadStep]
  rw [runSchedule_cons_true, e1, runSchedule_cons_false, e2,
    runSchedule_cons_true, e3, runSchedule_cons_false, e4,
    runSchedule_cons_true, e5, runSchedule_cons_false, e6,
    runSchedule_cons_true, e7, runSchedule_cons_true, e8,
    runSchedule_cons_false, e9, runSchedule_cons_false, e10]
  rfl

end HelperLemmas

/-- Claim C1, amended.  The pass effect is not guarded by an atomic
compare-and-set: the only guard is the initial read of `status='pending'`
(bot.py line 276).  Part one: an evaluator whose initial read observes an
already-terminal status performs no state change, however long it runs.
Part two: there is an interleaving of two evaluators racing on the final
deciding ballot of a pending proposal under which the pass effect fires
twice, because both pass the pending read before either commits. -/
theorem c1_no_cas_terminal_noop :
    (∀ (roster : List ChatMember) (now : Nat) (st : GovState) (t : EvalThread),
        ¬ st.proposal.status = "pending" → t.pc = 0 →
        ∀ n, (runEvalThread roster now n (st, t)).1 = st) ∧
    (∃ sched : List Bool,
        (runSchedule [mkAdmin 1, mkAdmin 2] 1000 sched
            ⟨⟨⟨1, 10, 1, "config", "engagement_tracking", "true", "pending", 0, none⟩,
                [(1, "yes")], []⟩,
              ⟨1, "yes", 0, none⟩, ⟨2, "yes", 0, none⟩⟩).shared.effects.length = 2) := by
  constructor
  · intro roster now st t hnp hpc n
    cases n with
    | zero => rfl
    | succ k =>
      show (runEvalThread roster now k
        (threadStep roster now (st, t).1 (st, t).2)).1 = st
      rw [threadStep_terminal roster now st t hnp hpc]
      rw [runEvalThread_halted roster now k st _ rfl]
  · exact ⟨[true, false, true, false, true, false, true, true, false, false],
      by rw [race_effects]; rfl⟩

/-- Claim C1, witness for the terminal-observer part: an evaluator started
on a proposal already `passed` runs three steps and changes nothing. -/
theorem c1_witness :
    (runEvalThread [mkAdmin 1] 1000 3
      (⟨⟨1, 10, 1, "config", "k", "v", "passed", 0, none⟩, [], []⟩,
        ⟨1, "yes", 0, none⟩)).1 =
    ⟨⟨1, 10, 1, "config", "k", "v", "passed", 0, none⟩, [], []⟩ :=
  c1_no_cas_terminal_noop.1 [mkAdmin 1] 1000
    ⟨⟨1, 10, 1, "config", "k", "v", "passed", 0, none⟩, [], []⟩
    ⟨1, "yes", 0, none⟩ (by decide) rfl 3

/-- Claim C1, counterexample to the claim as stated: two evaluations race
on the final deciding ballot of a pending two-admin proposal (one yes
ballot already recorded, both admins casting yes); under the exhibited
interleaving the pass effect fires twice, not exactly once. -/
theorem c1_counterexample :
    (runSchedule [mkAdmin 1, mkAdmin 2] 1000
        [true, false, true, false, true, false, true, true, false, false]
        ⟨⟨⟨1, 10, 1, "config", "engagement_tracking", "true", "pending", 0, none⟩,
            [(1, "yes")], []⟩,
          ⟨1, "yes", 0, none⟩, ⟨2, "yes", 0, none⟩⟩).shared.effects
      = ["config", "config"] ∧
    ¬ (runSchedule [mkAdmin 1, mkAdmin 2] 1000
        [true, false, true, false, true, false, true, true, false, false]
        ⟨⟨⟨1, 10, 1, "config", "engagement_tracking", "true", "pending", 0, none⟩,
            [(1, "yes")], []⟩,
          ⟨1, "yes", 0, none⟩, ⟨2, "yes", 0, none⟩⟩).shared.effects.length = 1 := by
  refine ⟨race_effects, ?_⟩
  rw [race_effects]
  decide

/-- Claim C2: for a pending, unexpired proposal whose attendance gate is
satisfied after the ballot upsert, the evaluation passes (result `passed`,
status `passed`) exactly when the weighted yes score is at least 50, and
rejects (result `rejected`, status `rejected`) exactly when it is below
50. -/
theorem c2_threshold (st : GovState) (R : List ChatMember) (now uid : Nat)
    (c : String) (auto : Bool)
    (hpend : st.proposal.status = "pending")
    (hexp : ¬ now - st.proposal.createdAt > 30 * 86400)
    (hatt : ¬ missingCount (upsertVote st.votes uid c) (currentAdminIdsOf R) > 0) :
    (((cast_vote st st.proposal.id (some R) now uid c auto).1 = CastResult.passed ∧
        (cast_vote st st.proposal.id (some R) now uid c auto).2.1.proposal.status = "passed") ↔
      scoreYes (upsertVote st.votes uid c) (currentAdminIdsOf R) (ownerIdOf R)
        st.proposal.actionType
        (computeWeights st.proposal.actionType (adminPoolCount R) (ownerIdOf R)).1
        (computeWeights st.proposal.actionType (adminPoolCount R) (ownerIdOf R)).2 ≥ 50) ∧
    (((cast_vote st st.proposal.id (some R) now uid c auto).1 = CastResult.rejected ∧
        (cast_vote st st.proposal.id (some R) now uid c auto).2.1.proposal.status = "rejected") ↔
      scoreYes (upsertVote st.votes uid c) (currentAdminIdsOf R) (ownerIdOf R)
        st.proposal.actionType
        (computeWeights st.proposal.actionType (adminPoolCount R) (ownerIdOf R)).1
        (computeWeights st.proposal.actionType (adminPoolCount R) (ownerIdOf R)).2 < 50) := by
  have hred : cast_vote st st.proposal.id (some R) now uid c auto =
      (if scoreYes (upsertVote st.votes uid c) (currentAdminIdsOf R) (ownerIdOf R)
          st.proposal.actionType
          (computeWeights st.proposal.actionType (adminPoolCount R) (ownerIdOf R)).1
          (computeWeights st.proposal.actionType (adminPoolCount R) (ownerIdOf R)).2 ≥ 50 then
        (CastResult.passed,
          execute_proposal { st with votes := upsertVote st.votes uid c },
          if auto then [] else [Reply.voteSaved st.proposal.id])
      else
        (CastResult.rejected,
          { st with
              votes := upsertVote st.votes uid c
              proposal := { st.proposal with status := "rejected" } },
          if auto then [] else [Reply.voteSaved st.proposal.id])) := by
    unfold cast_vote
    rw [if_pos ⟨rfl, hpend⟩, if_neg hexp]
    simp only [if_neg hatt]
  rw [hred]
  by_cases hs : scoreYes (upsertVote st.votes uid c) (currentAdminIdsOf R) (ownerIdOf R)
      st.proposal.actionType
      (computeWeights st.proposal.actionType (adminPoolCount R) (ownerIdOf R)).1
      (computeWeights st.proposal.actionType (adminPoolCount R) (ownerIdOf R)).2 ≥ 50
  · rw [if_pos hs]
    simp [execute_proposal, hs, not_lt.mpr hs]
  · rw [if_neg hs]
    simp [hs, not_le.mp hs]

/-- Claim C2, witness: two equal-weight administrators and no owner, one
yes and one no — the score is exactly 50.0 and the proposal passes. -/
theorem c2_witness :
    (cast_vote ⟨⟨1, 10, 1, "config", "k", "v", "pending", 0, none⟩, [(1, "yes")], []⟩
        1 (some [mkAdmin 1, mkAdmin 2]) 1000 2 "no" false).1 = CastResult.passed ∧
    (cast_vote ⟨⟨1, 10, 1, "config", "k", "v", "pending", 0, none⟩, [(1, "yes")], []⟩
        1 (some [mkAdmin 1, mkAdmin 2]) 1000 2 "no" false).2.1.proposal.status = "passed" :=
  (c2_threshold ⟨⟨1, 10, 1, "config", "k", "v", "pending", 0, none⟩, [(1, "yes")], []⟩
      [mkAdmin 1, mkAdmin 2] 1000 2 "no" false rfl (by decide) (by decide)).1.mpr
    (by
      have hbl : isBlacklistAction "config" = false := by decide
      simp [upsertVote, votedIds, currentAdminIdsOf, ownerIdOf, adminPoolCount,
        computeWeights, scoreYes, mkAdmin, ownerFalsy, hbl, List.filter, List.foldl]
      norm_num)

/-- Claim C3: for a pending, unexpired proposal, if some non-bot member of
the freshly fetched roster has no recorded ballot after the upsert, the
evaluation stops: the result is the silent still-pending return, the
ballot is recorded, and the proposal row is untouched (status stays
pending), regardless of the yes weight accumulated so far. -/
theorem c3_attendance_gate (st : GovState) (R : List ChatMember)
    (now uid : Nat) (c : String) (auto : Bool)
    (hpend : st.proposal.status = "pending")
    (hexp : ¬ now - st.proposal.createdAt > 30 * 86400)
    (hk : (votedIds st.votes).Nodup)
    (hi : (currentAdminIdsOf R).Nodup)
    (hmiss : ∃ a ∈ R, ¬ a.isBot = true ∧
      a.userId ∉ votedIds (upsertVote st.votes uid c)) :
    cast_vote st st.proposal.id (some R) now uid c auto =
      (CastResult.stillPending, { st with votes := upsertVote st.votes uid c },
        if auto then [] else [Reply.voteSaved st.proposal.id]) := by
  obtain ⟨a, haR, hab, hanv⟩ := hmiss
  have hxi : a.userId ∈ currentAdminIdsOf R := by
    unfold currentAdminIdsOf
    refine List.mem_map.mpr ⟨a, List.mem_filter.mpr ⟨haR, by simp [hab]⟩, rfl⟩
  have hm : missingCount (upsertVote st.votes uid c) (currentAdminIdsOf R) > 0 :=
    missingCount_pos (nodup_votedIds_upsert c hk) hi hxi hanv
  unfold cast_vote
  rw [if_pos ⟨rfl, hpend⟩, if_neg hexp]
  simp only [if_pos hm]

/-- Claim C3, witness: three eligible admins, two unanimous yes ballots
with combined weight above 50, the third admin silent — the proposal stays
pending. -/
theorem c3_witness :
    cast_vote ⟨⟨1, 10, 1, "config", "k", "v", "pending", 0, none⟩, [(1, "yes")], []⟩
        1 (some [mkAdmin 1, mkAdmin 2, mkAdmin 3]) 1000 2 "yes" false =
      (CastResult.stillPending,
        ⟨⟨1, 10, 1, "config", "k", "v", "pending", 0, none⟩, [(1, "yes"), (2, "yes")], []⟩,
        [Reply.voteSaved 1]) := by
  rw [c3_attendance_gate ⟨⟨1, 10, 1, "config", "k", "v", "pending", 0, none⟩, [(1, "yes")], []⟩
    [mkAdmin 1, mkAdmin 2, mkAdmin 3] 1000 2 "yes" false rfl (by decide) (by decide)
    (by decide) (by decide)]
  rfl

/-- Claim C4: the weight-table case analysis of the source, over the roster
shapes of the spec: blacklist categories give the owner 0 and each of the
A > 0 admins 100/A (owner present or not); any other category gives the
owner 50 and each admin 50/A when both are present, the owner 100 when
alone, and each admin 100/A when there is no owner. -/
theorem c4_weight_cases (o : Nat) (ho : ¬ o = 0) (l : List Nat)
    (hol : ∀ i ∈ l, ¬ i = o) (hl : 0 < l.length) (cat : String)
    (hcat : isBlacklistAction cat = false) :
    computeWeights "blacklist_add" (adminPoolCount (mkRoster (some o) l))
        (ownerIdOf (mkRoster (some o) l)) = (0, 100 / (l.length : ℚ)) ∧
    computeWeights "blacklist_remove" (adminPoolCount (mkRoster (some o) l))
        (ownerIdOf (mkRoster (some o) l)) = (0, 100 / (l.length : ℚ)) ∧
    computeWeights "blacklist_add" (adminPoolCount (mkRoster none l))
        (ownerIdOf (mkRoster none l)) = (0, 100 / (l.length : ℚ)) ∧
    computeWeights cat (adminPoolCount (mkRoster (some o) l))
        (ownerIdOf (mkRoster (some o) l)) = (50, 50 / (l.length : ℚ)) ∧
    computeWeights cat (adminPoolCount (mkRoster (some o) []))
        (ownerIdOf (mkRoster (some o) [])) = (100, 0) ∧
    computeWeights cat (adminPoolCount (mkRoster none l))
        (ownerIdOf (mkRoster none l)) = (0, 100 / (l.length : ℚ)) := by
  have hba : isBlacklistAction "blacklist_add" = true := by decide
  have hbr : isBlacklistAction "blacklist_remove" = true := by decide
  have hof : ¬ ownerFalsy (some o) := by simp [ownerFalsy, ho]
  rw [adminPoolCount_mkRoster_some o l hol, ownerIdOf_mkRoster_some o l,
    adminPoolCount_mkRoster_none, ownerIdOf_mkRoster_none,
    adminPoolCount_mkRoster_some o [] (by simp),
    ownerIdOf_mkRoster_some o ([] : List Nat)]
  refine ⟨?_, ?_, ?_, ?_, ?_, ?_⟩ <;>
    simp [computeWeights, hba, hbr, hcat, hof, hl, Nat.pos_iff_ne_zero.mp hl]

/-- Claim C4, witness: owner 5 with admins 1 and 2 for category config. -/
theorem c4_witness :
    computeWeights "blacklist_add" (adminPoolCount (mkRoster (some 5) [1, 2]))
        (ownerIdOf (mkRoster (some 5) [1, 2])) = (0, 100 / (([1, 2] : List Nat).length : ℚ)) ∧
    computeWeights "blacklist_remove" (adminPoolCount (mkRoster (some 5) [1, 2]))
        (ownerIdOf (mkRoster (some 5) [1, 2])) = (0, 100 / (([1, 2] : List Nat).length : ℚ)) ∧
    computeWeights "blacklist_add" (adminPoolCount (mkRoster none [1, 2]))
        (ownerIdOf (mkRoster none [1, 2])) = (0, 100 / (([1, 2] : List Nat).length : ℚ)) ∧
    computeWeights "config" (adminPoolCount (mkRoster (some 5) [1, 2]))
        (ownerIdOf (mkRoster (some 5) [1, 2])) = (50, 50 / (([1, 2] : List Nat).length : ℚ)) ∧
    computeWeights "config" (adminPoolCount (mkRoster (some 5) []))
        (ownerIdOf (mkRoster (some 5) [])) = (100, 0) ∧
    computeWeights "config" (adminPoolCount (mkRoster none [1, 2]))
        (ownerIdOf (mkRoster none [1, 2])) = (0, 100 / (([1, 2] : List Nat).length : ℚ)) :=
  c4_weight_cases 5 (by decide) [1, 2] (by decide) (by decide) "config" (by decide)

/-- Claim C5, amended: the weight table of an evaluation sums to exactly
100 for every roster and category except the degenerate blacklist roster
whose only eligible voter is the owner — precisely, whenever there is at
least one non-owner admin, or an owner is present and the category is not
a blacklist one.  (Python float arithmetic is modelled by exact rational
arithmetic.) -/
theorem c5_weight_sum_amended (oid : Option Nat) (l : List Nat) (act : String)
    (ho : ¬ oid = some 0) (hol : ∀ i ∈ l, ¬ oid = some i)
    (hcase : 0 < l.length ∨ (oid.isSome ∧ isBlacklistAction act = false)) :
    ((weightTable (mkRoster oid l) act).map Prod.snd).sum = 100 := by
  cases oid with
  | none =>
    have hn : 0 < l.length := by
      rcases hcase with h | h
      · exact h
      · simp at h
    have hn0 : (l.length : ℚ) ≠ 0 := Nat.cast_ne_zero.mpr (Nat.pos_iff_ne_zero.mp hn)
    simp only [weightTable, ownerIdOf_mkRoster_none, currentAdminIdsOf_mkRoster_none,
      adminPoolCount_mkRoster_none, computeWeights_none, List.map_map,
      Function.comp_def]
    rw [sum_map_voterWeight_of_not_owner act none _ _ l (by intro i _; simp)]
    rw [if_pos hn]
    field_simp
  | some o =>
    have hoz : ¬ (o : Nat) = 0 := by
      intro h
      exact ho (by rw [h])
    simp only [weightTable, ownerIdOf_mkRoster_some, currentAdminIdsOf_mkRoster_some,
      adminPoolCount_mkRoster_some o l (fun i hi h => hol i hi (by rw [h])),
      List.map_cons, List.sum_cons, List.map_map, Function.comp_def]
    rw [sum_map_voterWeight_of_not_owner act (some o) _ _ l
      (fun i hi h => hol i hi h)]
    by_cases hbl : isBlacklistAction act = true
    · have hn : 0 < l.length := by
        rcases hcase with h | h
        · exact h
        · rw [hbl] at h; simp at h
      have hn0 : (l.length : ℚ) ≠ 0 := Nat.cast_ne_zero.mpr (Nat.pos_iff_ne_zero.mp hn)
      unfold computeWeights
      rw [if_pos hbl]
      unfold voterWeight
      rw [if_neg (fun h => h.2 hbl), if_neg (by simp)]
      simp only [if_pos hn]
      field_simp
    · have hnf : ¬ ownerFalsy (some o) := by
        simp [ownerFalsy, hoz]
      by_cases hn : 0 < l.length
      · have hn0 : (l.length : ℚ) ≠ 0 := Nat.cast_ne_zero.mpr (Nat.pos_iff_ne_zero.mp hn)
        have hapc : ¬ (l.length = 0 ∧ ¬ ownerFalsy (some o)) := by
          intro h
          omega
        unfold computeWeights
        rw [if_neg (by simp [hbl]), if_neg hapc, if_neg hnf]
        unfold voterWeight
        rw [if_pos (by exact ⟨rfl, by simp [hbl]⟩)]
        simp only [if_pos hn]
        field_simp
        ring
      · have hl0 : l = [] := List.length_eq_zero.mp (by omega)
        subst hl0
        unfold computeWeights
        rw [if_neg (by simp [hbl]), if_pos (by exact ⟨rfl, hnf⟩)]
        unfold voterWeight
        rw [if_pos (by exact ⟨rfl, by simp [hbl]⟩)]
        simp

/-- Claim C5, witness: owner with two admins on a config proposal. -/
theorem c5_witness :
    ((weightTable (mkRoster (some 1) [2, 3]) "config").map Prod.snd).sum = 100 :=
  c5_weight_sum_amended (some 1) [2, 3] "config" (by decide) (by decide) (by decide)

/-- Claim C5, counterexample to the claim as stated: a blacklist proposal
in a roster whose only member is the owner has one eligible voter, yet the
weight table sums to 0, not 100. -/
theorem c5_counterexample :
    (currentAdminIdsOf (mkRoster (some 1) [])).length = 1 ∧
    ((weightTable (mkRoster (some 1) []) "blacklist_add").map Prod.snd).sum = 0 := by
  constructor
  · decide
  · simp [weightTable, mkRoster, currentAdminIdsOf, ownerIdOf, adminPoolCount,
      computeWeights, voterWeight, mkOwner, ownerFalsy,
      show isBlacklistAction "blacklist_add" = true from by decide]

/-- Claim C6, amended: for a blacklist proposal evaluated against a roster
with zero non-owner administrators, both weights are 0, so no cast can
ever make the proposal pass (the result is never `passed`, the status
never becomes `passed`, and no effect fires); the proposal does not stay
pending in every case, however — see the counterexample. -/
theorem c6_degenerate_blacklist_amended (st : GovState) (R : List ChatMember)
    (now uid : Nat) (c : String) (auto : Bool) (pid : Nat)
    (hbl : isBlacklistAction st.proposal.actionType = true)
    (hapc : adminPoolCount R = 0)
    (hnp : ¬ st.proposal.status = "passed") :
    computeWeights st.proposal.actionType (adminPoolCount R) (ownerIdOf R) = (0, 0) ∧
    ¬ (cast_vote st pid (some R) now uid c auto).1 = CastResult.passed ∧
    ¬ (cast_vote st pid (some R) now uid c auto).2.1.proposal.status = "passed" ∧
    (cast_vote st pid (some R) now uid c auto).2.1.effects = st.effects := by
  have hw : computeWeights st.proposal.actionType (adminPoolCount R) (ownerIdOf R) = (0, 0) := by
    rw [hapc]
    unfold computeWeights
    rw [if_pos hbl]
    simp
  refine ⟨hw, ?_⟩
  unfold cast_vote
  by_cases h1 : st.proposal.id = pid ∧ st.proposal.status = "pending"
  · rw [if_pos h1]
    by_cases h2 : now - st.proposal.createdAt > 30 * 86400
    · rw [if_pos h2]
      refine ⟨by simp, by simp, rfl⟩
    · rw [if_neg h2]
      by_cases h3 : missingCount (upsertVote st.votes uid c) (currentAdminIdsOf R) > 0
      · simp only [if_pos h3]
        exact ⟨by simp, fun h => hnp h, trivial⟩
      · simp only [if_neg h3, hw]
        have hsc : ¬ scoreYes (upsertVote st.votes uid c) (currentAdminIdsOf R)
            (ownerIdOf R) st.proposal.actionType ((0 : ℚ), (0 : ℚ)).1 ((0 : ℚ), (0 : ℚ)).2 ≥ 50 := by
          simp only []
          rw [scoreYes_zero_weights]
          norm_num
        rw [if_neg hsc]
        exact ⟨by simp, by simp, rfl⟩
  · rw [if_neg h1]
    exact ⟨by simp, fun h => hnp h, rfl⟩

/-- Claim C6, witness: a blacklist proposal with an owner-only roster can
never pass. -/
theorem c6_witness :
    computeWeights "blacklist_add" (adminPoolCount [mkOwner 1])
        (ownerIdOf [mkOwner 1]) = (0, 0) ∧
    ¬ (cast_vote ⟨⟨1, 10, 1, "blacklist_add", "word", "spam", "pending", 0, none⟩, [], []⟩
        1 (some [mkOwner 1]) 1000 1 "yes" false).1 = CastResult.passed ∧
    ¬ (cast_vote ⟨⟨1, 10, 1, "blacklist_add", "word", "spam", "pending", 0, none⟩, [], []⟩
        1 (some [mkOwner 1]) 1000 1 "yes" false).2.1.proposal.status = "passed" ∧
    (cast_vote ⟨⟨1, 10, 1, "blacklist_add", "word", "spam", "pending", 0, none⟩, [], []⟩
        1 (some [mkOwner 1]) 1000 1 "yes" false).2.1.effects = [] :=
  c6_degenerate_blacklist_amended
    ⟨⟨1, 10, 1, "blacklist_add", "word", "spam", "pending", 0, none⟩, [], []⟩
    [mkOwner 1] 1000 1 "yes" false 1 (by decide) (by decide) (by decide)

/-- Claim C6, counterexample to the claim as stated: once the owner (the
sole eligible voter) casts a ballot on the degenerate blacklist proposal,
the attendance gate is satisfied, the zero score loses to the threshold,
and the proposal is immediately `rejected` — it does not remain pending
until an admin exists or the 30-day expiry fires. -/
theorem c6_counterexample :
    cast_vote ⟨⟨1, 10, 1, "blacklist_add", "word", "spam", "pending", 0, none⟩, [], []⟩
        1 (some [mkOwner 1]) 1000 1 "yes" false =
      (CastResult.rejected,
        ⟨⟨1, 10, 1, "blacklist_add", "word", "spam", "rejected", 0, none⟩, [(1, "yes")], []⟩,
        [Reply.voteSaved 1]) ∧
    ¬ (cast_vote ⟨⟨1, 10, 1, "blacklist_add", "word", "spam", "pending", 0, none⟩, [], []⟩
        1 (some [mkOwner 1]) 1000 1 "yes" false).2.1.proposal.status = "pending" := by
  have h : cast_vote ⟨⟨1, 10, 1, "blacklist_add", "word", "spam", "pending", 0, none⟩, [], []⟩
      1 (some [mkOwner 1]) 1000 1 "yes" false =
      (CastResult.rejected,
        ⟨⟨1, 10, 1, "blacklist_add", "word", "spam", "rejected", 0, none⟩, [(1, "yes")], []⟩,
        [Reply.voteSaved 1]) := by
    simp [cast_vote, upsertVote, votedIds, missingCount, validVotesCount,
      currentAdminIdsOf, ownerIdOf, adminPoolCount, computeWeights, scoreYes,
      isBlacklistAction, mkOwner, execute_proposal]
  refine ⟨h, ?_⟩
  rw [h]
  decide

/-- Claim C7: casting a ballot on a pending proposal older than 30 days
fails with the expired result, records no ballot (the votes are unchanged),
and as a side effect transitions the proposal to `expired`. -/
theorem c7_lazy_expiry (st : GovState) (rf : Option (List ChatMember))
    (now uid : Nat) (c : String) (auto : Bool)
    (hpend : st.proposal.status = "pending")
    (hage : now - st.proposal.createdAt > 30 * 86400) :
    cast_vote st st.proposal.id rf now uid c auto =
      (CastResult.expired,
        { st with proposal := { st.proposal with status := "expired" } },
        if auto then [] else [Reply.expiredMsg]) := by
  unfold cast_vote
  rw [if_pos ⟨rfl, hpend⟩, if_pos hage]

/-- Claim C7, witness: a proposal created 31.25 days before the cast is
lazily expired and the ballot is rejected. -/
theorem c7_witness :
    cast_vote ⟨⟨1, 10, 1, "config", "k", "v", "pending", 0, none⟩, [], []⟩
        1 none 2700000 7 "yes" false =
      (CastResult.expired,
        ⟨⟨1, 10, 1, "config", "k", "v", "expired", 0, none⟩, [], []⟩,
        [Reply.expiredMsg]) := by
  rw [c7_lazy_expiry ⟨⟨1, 10, 1, "config", "k", "v", "pending", 0, none⟩, [], []⟩
    none 2700000 7 "yes" false rfl (by decide)]
  rfl

/-- Claim C8, amended: when the roster fetch fails on a pending, unexpired
proposal, the evaluation is skipped and the proposal row is untouched
(status stays pending), but the ballot upserted earlier in the call
persists, and no error is surfaced to the caller — the only caller-visible
message is the vote-saved acknowledgment sent before the fetch. -/
theorem c8_roster_failure_amended (st : GovState) (now uid : Nat) (c : String)
    (hpend : st.proposal.status = "pending")
    (hexp : ¬ now - st.proposal.createdAt > 30 * 86400) :
    cast_vote st st.proposal.id none now uid c false =
      (CastResult.rosterFetchFailed,
        { st with votes := upsertVote st.votes uid c },
        [Reply.voteSaved st.proposal.id]) := by
  unfold cast_vote
  rw [if_pos ⟨rfl, hpend⟩, if_neg hexp]
  rfl

/-- Claim C8, witness: a concrete roster-fetch failure keeps the proposal
pending, keeps the new ballot, and surfaces only the save acknowledgment. -/
theorem c8_witness :
    cast_vote ⟨⟨1, 10, 7, "config", "k", "v", "pending", 0, none⟩, [], []⟩
        1 none 1000 7 "yes" false =
      (CastResult.rosterFetchFailed,
        ⟨⟨1, 10, 7, "config", "k", "v", "pending", 0, none⟩, [(7, "yes")], []⟩,
        [Reply.voteSaved 1]) := by
  rw [c8_roster_failure_amended ⟨⟨1, 10, 7, "config", "k", "v", "pending", 0, none⟩, [], []⟩
    1000 7 "yes" rfl (by decide)]
  rfl

/-- Claim C8, counterexample to the claim as stated: with the roster fetch
failing, the operation is claimed to abort with no ballot change
persisting, yet the recorded votes change from empty to the cast ballot,
and the caller receives a success acknowledgment rather than a retryable
error. -/
theorem c8_counterexample :
    (⟨⟨1, 10, 7, "config", "k", "v", "pending", 0, none⟩, [], []⟩ : GovState).votes = [] ∧
    (cast_vote ⟨⟨1, 10, 7, "config", "k", "v", "pending", 0, none⟩, [], []⟩
        1 none 1000 7 "yes" false).2.1.votes = [(7, "yes")] ∧
    (cast_vote ⟨⟨1, 10, 7, "config", "k", "v", "pending", 0, none⟩, [], []⟩
        1 none 1000 7 "yes" false).2.2 = [Reply.voteSaved 1] ∧
    (cast_vote ⟨⟨1, 10, 7, "config", "k", "v", "pending", 0, none⟩, [], []⟩
        1 none 1000 7 "yes" false).2.1.proposal.status = "pending" := by
  refine ⟨rfl, ?_, ?_, ?_⟩ <;> decide

/-- Claim C9, amended: `cancel_proposal` succeeds exactly when the live
group-admin check passes, the proposal with the given id is pending, and
the requester is the proposer; on success only the status changes, to
`cancelled`, and on failure nothing changes.  (The admin gate precedes the
proposer check in the source, so even the proposer is refused when the
check fails — see the counterexample.) -/
theorem c9_cancel_amended (st : GovState) (b : Bool) (rid pid : Nat) :
    ((cancel_proposal st b rid pid).1 = CancelResult.cancelled ↔
      (b = true ∧ st.proposal.id = pid ∧ st.proposal.status = "pending" ∧
        st.proposal.proposerId = rid)) ∧
    ((cancel_proposal st b rid pid).1 = CancelResult.cancelled →
      (cancel_proposal st b rid pid).2 =
        { st with proposal := { st.proposal with status := "cancelled" } }) ∧
    (¬ (cancel_proposal st b rid pid).1 = CancelResult.cancelled →
      (cancel_proposal st b rid pid).2 = st) := by
  unfold cancel_proposal
  cases b <;> split_ifs <;> simp_all

/-- Claim C9, witness: a pending proposal cancelled by its proposer who
passes the admin check. -/
theorem c9_witness :
    (cancel_proposal ⟨⟨1, 10, 7, "config", "k", "v", "pending", 0, none⟩, [], []⟩
        true 7 1).1 = CancelResult.cancelled :=
  (c9_cancel_amended ⟨⟨1, 10, 7, "config", "k", "v", "pending", 0, none⟩, [], []⟩
      true 7 1).1.mpr (by decide)

/-- Claim C9, counterexample to the claim as stated: the proposal is
pending and the requester is the proposer, yet the call fails because the
is_admin gate returns false (for instance after the proposer is demoted). -/
theorem c9_counterexample :
    ((cancel_proposal ⟨⟨1, 10, 7, "config", "k", "v", "pending", 0, none⟩, [], []⟩
        false 7 1).1 ≠ CancelResult.cancelled) ∧
    (⟨⟨1, 10, 7, "config", "k", "v", "pending", 0, none⟩, [], []⟩ : GovState).proposal.status = "pending" ∧
    (⟨⟨1, 10, 7, "config", "k", "v", "pending", 0, none⟩, [], []⟩ : GovState).proposal.proposerId = 7 := by
  refine ⟨?_, rfl, rfl⟩
  decide

/-- Claim C10: casting any string as the choice on a pending, unexpired
proposal records it verbatim, its voter id counts toward the attendance
gate exactly like a yes or no ballot, and when the string is not exactly
"yes" the whole call behaves like casting "no" apart from the stored
string: same result, same proposal transition, same effects, same
replies. -/
theorem c10_choice_recorded_verbatim (st : GovState)
    (rf : Option (List ChatMember)) (now uid : Nat) (c : String) (auto : Bool)
    (hpend : st.proposal.status = "pending")
    (hexp : ¬ now - st.proposal.createdAt > 30 * 86400)
    (hc : ¬ c = "yes") :
    (cast_vote st st.proposal.id rf now uid c auto).2.1.votes =
      upsertVote st.votes uid c ∧
    votedIds (upsertVote st.votes uid c) = votedIds (upsertVote st.votes uid "no") ∧
    cast_vote st st.proposal.id rf now uid c auto =
      ((cast_vote st st.proposal.id rf now uid "no" auto).1,
        { (cast_vote st st.proposal.id rf now uid "no" auto).2.1 with
            votes := upsertVote st.votes uid c },
        (cast_vote st st.proposal.id rf now uid "no" auto).2.2) := by
  have hvi : votedIds (upsertVote st.votes uid c) = votedIds (upsertVote st.votes uid "no") :=
    votedIds_upsert_indep st.votes uid c "no"
  have hmc : ∀ ids, missingCount (upsertVote st.votes uid c) ids =
      missingCount (upsertVote st.votes uid "no") ids := by
    intro ids
    unfold missingCount validVotesCount
    rw [hvi]
  have hmain : cast_vote st st.proposal.id rf now uid c auto =
      ((cast_vote st st.proposal.id rf now uid "no" auto).1,
        { (cast_vote st st.proposal.id rf now uid "no" auto).2.1 with
            votes := upsertVote st.votes uid c },
        (cast_vote st st.proposal.id rf now uid "no" auto).2.2) := by
    unfold cast_vote
    simp only [hpend, if_neg hexp, eq_self_iff_true, and_self, if_true]
    cases rf with
    | none => rfl
    | some R =>
      simp only [hmc, scoreYes_upsert_not_yes st.votes uid c hc]
      by_cases h3 : missingCount (upsertVote st.votes uid "no") (currentAdminIdsOf R) > 0
      · simp only [if_pos h3]
      · simp only [if_neg h3]
        by_cases hs : scoreYes (upsertVote st.votes uid "no") (currentAdminIdsOf R)
            (ownerIdOf R) st.proposal.actionType
            (computeWeights st.proposal.actionType (adminPoolCount R) (ownerIdOf R)).1
            (computeWeights st.proposal.actionType (adminPoolCount R) (ownerIdOf R)).2 ≥ 50
        · simp only [if_pos hs]
          unfold execute_proposal
          rfl
        · simp only [if_neg hs]
  refine ⟨?_, hvi, hmain⟩
  rw [hmain]

/-- Claim C10, witness: the string "maybe" is stored verbatim and tallied
like a no vote (here it satisfies attendance for the sole admin and the
proposal is rejected with zero yes weight). -/
theorem c10_witness :
    (cast_vote ⟨⟨1, 10, 7, "config", "k", "v", "pending", 0, none⟩, [], []⟩
        1 (some [mkAdmin 7]) 1000 7 "maybe" false).2.1.votes =
      upsertVote [] 7 "maybe" ∧
    votedIds (upsertVote [] 7 "maybe") = votedIds (upsertVote [] 7 "no") ∧
    cast_vote ⟨⟨1, 10, 7, "config", "k", "v", "pending", 0, none⟩, [], []⟩
        1 (some [mkAdmin 7]) 1000 7 "maybe" false =
      ((cast_vote ⟨⟨1, 10, 7, "config", "k", "v", "pending", 0, none⟩, [], []⟩
          1 (some [mkAdmin 7]) 1000 7 "no" false).1,
        { (cast_vote ⟨⟨1, 10, 7, "config", "k", "v", "pending", 0, none⟩, [], []⟩
            1 (some [mkAdmin 7]) 1000 7 "no" false).2.1 with
            votes := upsertVote [] 7 "maybe" },
        (cast_vote ⟨⟨1, 10, 7, "config", "k", "v", "pending", 0, none⟩, [], []⟩
            1 (some [mkAdmin 7]) 1000 7 "no" false).2.2) :=
  c10_choice_recorded_verbatim
    ⟨⟨1, 10, 7, "config", "k", "v", "pending", 0, none⟩, [], []⟩
    (some [mkAdmin 7]) 1000 7 "maybe" false rfl (by decide) (by decide)

end AnonBot
